import Mathlib

/-!
Verification of the GitHub-activity collector (`main.py`) and the chart
renderer's loader (`plot_analysis.py`).

The embedding is shallow: HTTP responses become a record of the fields the
code reads (`status_code`, body `text`, the `X-RateLimit-Reset` header);
wall-clock time and `datetime` values become integral numbers of seconds
(for the weekly decomposition, seconds since 2025-01-01T00:00:00, a choice
of epoch that only re-bases every absolute time by the same constant);
`time.sleep` calls become a recorded list of slept durations; network I/O
becomes an oracle function from the request a call site issues to the JSON
payload it observes.  Print statements are modelled (as structured log
events) only where a claim speaks about logged output.
-/

/-! ## Rate-limited fetcher (`rate_limited_get`, main.py lines 8-42) -/

/-- The parts of an HTTP response that `rate_limited_get` inspects:
`response.status_code`, `response.text`, and the `X-RateLimit-Reset` header
(`none` when the header is absent; the header's string value is modelled
already parsed to the integer that `int(reset_time)` yields). -/
structure HttpResponse where
  status_code : Nat
  text : String
  resetHeader : Option Int
deriving DecidableEq

/-- `pat` is a prefix of `l` (character lists). -/
def prefixOfChars : List Char → List Char → Bool
  | [], _ => true
  | _ :: _, [] => false
  | a :: asTail, b :: bs => a == b && prefixOfChars asTail bs

/-- `pat` occurs as a contiguous sublist of `l`. -/
def containsSub (l pat : List Char) : Bool :=
  match l with
  | [] => pat.isEmpty
  | _ :: t => prefixOfChars pat l || containsSub t pat

/-- `'rate limit' in response.text.lower()` (main.py line 14). -/
def textHasRateLimit (text : String) : Bool :=
  containsSub (text.data.map Char.toLower) ("rate limit".data)

/-- The test of main.py line 14:
`response.status_code == 403 and 'rate limit' in response.text.lower()`. -/
def isRateLimitResp (r : HttpResponse) : Bool :=
  r.status_code == 403 && textHasRateLimit r.text

/-- What one loop iteration of `rate_limited_get` decides to do with the
response it received: sleep `wait` seconds and go round the loop again, or
return the response now (the 422 branch and the final `else` branch both
return immediately). -/
inductive StepAction where
  | retryAfter (wait : Int)
  | terminate
deriving DecidableEq

/-- The status dispatch of main.py lines 14-38, given the response `r`, the
0-based loop index `attempt`, and the current wall clock `t` (seconds):
* 403 with a rate-limit body and a reset header: sleep
  `max (reset - t + 10) 30` (lines 17-21);
* 403 with a rate-limit body, no reset header: sleep `2 ^ attempt * 30`
  (lines 22-26);
* 202: sleep 30 (lines 27-30);
* 422 or anything else: return the response (lines 31-38). -/
def handleResponse (r : HttpResponse) (attempt : Nat) (t : Int) : StepAction :=
  if isRateLimitResp r then
    match r.resetHeader with
    | some reset => .retryAfter (max (reset - t + 10) 30)
    | none => .retryAfter (2 ^ attempt * 30)
  else if r.status_code == 202 then .retryAfter 30
  else .terminate

/-- The observable behaviour of one call to `rate_limited_get`: the response
it returns, the durations it slept in order, and how many GET requests it
issued. -/
structure FetchTrace where
  response : HttpResponse
  sleeps : List Int
  requests : Nat
deriving DecidableEq

/-- The `for attempt in range(max_retries)` loop of main.py lines 10-38,
with `remaining` iterations still allowed.  `responses k` is the response
the GET of loop iteration `k` receives (the network oracle); `t` is the
wall clock, advanced by exactly the slept duration across a sleep.  When
the loop runs out of iterations right after a sleep, the loop exits and
line 42 returns the response of the final iteration.  (The `remaining = 0`
base case is unreachable from `rateLimitedGet` with `maxRetries ≥ 1`.) -/
def rlgAux (responses : Nat → HttpResponse) : Int → Nat → Nat → FetchTrace
  | _, attempt, 0 => ⟨responses attempt, [], 1⟩
  | t, attempt, rem + 1 =>
    let r := responses attempt
    match handleResponse r attempt t, rem with
    | .terminate, _ => ⟨r, [], 1⟩
    | .retryAfter w, 0 => ⟨r, [w], 1⟩
    | .retryAfter w, m + 1 =>
      let rest := rlgAux responses (t + w) (attempt + 1) (m + 1)
      ⟨rest.response, w :: rest.sleeps, rest.requests + 1⟩

/-- `rate_limited_get(url, headers, params, max_retries)` (main.py lines
8-42), abstracted over the network oracle and the wall clock at call time.
The default bound in the source is `max_retries=3`. -/
def rateLimitedGet (responses : Nat → HttpResponse) (t : Int)
    (maxRetries : Nat) : FetchTrace :=
  rlgAux responses t 0 maxRetries

/-- Unfolding equation for `rlgAux` with at least one iteration allowed. -/
theorem rlgAux_succ (responses : Nat → HttpResponse) (t : Int)
    (attempt rem : Nat) :
    rlgAux responses t attempt (rem + 1) =
      (match handleResponse (responses attempt) attempt t, rem with
       | .terminate, _ => ⟨responses attempt, [], 1⟩
       | .retryAfter w, 0 => ⟨responses attempt, [w], 1⟩
       | .retryAfter w, m + 1 =>
         let rest := rlgAux responses (t + w) (attempt + 1) (m + 1)
         ⟨rest.response, w :: rest.sleeps, rest.requests + 1⟩) := by
  cases rem with
  | zero =>
    cases h : handleResponse (responses attempt) attempt t <;> simp [rlgAux, h]
  | succ m =>
    cases h : handleResponse (responses attempt) attempt t <;> simp [rlgAux, h]

/-- Every run of the fetch loop issues at least one GET request. -/
theorem rlgAux_requests_pos (responses : Nat → HttpResponse) (t : Int)
    (attempt rem : Nat) : 1 ≤ (rlgAux responses t attempt rem).requests := by
  cases rem with
  | zero => exact Nat.le_refl 1
  | succ m =>
    rw [rlgAux_succ]
    cases handleResponse (responses attempt) attempt t with
    | terminate => exact Nat.le_refl 1
    | retryAfter w =>
      cases m with
      | zero => exact Nat.le_refl 1
      | succ k => exact Nat.le_add_left 1 _

/-- C1: whenever an iteration of `rate_limited_get` (at any loop index
`attempt`, wall clock `t`, with at least one retry still allowed) receives
an HTTP 403 response whose body indicates a rate limit and whose reset
header lies `R - t = N ≥ 0` seconds in the future, the very next thing the
fetcher does is sleep exactly `max (N + 10) 30` seconds — hence at least
that long — and a retry request is then issued (at least two GETs happen).
`rateLimitedGet` itself is the loop entered at `attempt = 0`. -/
theorem rate_limited_get_reset_wait (responses : Nat → HttpResponse)
    (t : Int) (attempt rem : Nat) (R : Int)
    (hstatus : (responses attempt).status_code = 403)
    (htext : textHasRateLimit (responses attempt).text = true)
    (hreset : (responses attempt).resetHeader = some R)
    (hfuture : 0 ≤ R - t) (hrem : 2 ≤ rem) :
    (rlgAux responses t attempt rem).sleeps.head? =
        some (max (R - t + 10) 30) ∧
      2 ≤ (rlgAux responses t attempt rem).requests ∧
      (∀ (resp : Nat → HttpResponse) (t0 : Int) (m : Nat),
        rateLimitedGet resp t0 m = rlgAux resp t0 0 m) := by
  obtain ⟨k, rfl⟩ : ∃ k, rem = k + 2 :=
    ⟨rem - 2, by omega⟩
  have hact : handleResponse (responses attempt) attempt t =
      .retryAfter (max (R - t + 10) 30) := by
    unfold handleResponse isRateLimitResp
    rw [hstatus, htext, hreset]
    simp
  rw [show k + 2 = (k + 1) + 1 from rfl, rlgAux_succ, hact]
  refine ⟨rfl, ?_, fun _ _ _ => rfl⟩
  have := rlgAux_requests_pos responses (t + max (R - t + 10) 30)
    (attempt + 1) (k + 1)
  simpa using Nat.add_le_add_right this 1

/-- Concrete witness for `rate_limited_get_reset_wait`: a 403 rate-limit
response whose reset header is 50 seconds ahead of a clock at 1000. -/
theorem rate_limited_get_reset_wait_witness :
    (rlgAux (fun _ => ⟨403, "API rate limit exceeded", some 1050⟩)
        1000 0 3).sleeps.head? = some (max ((1050 : Int) - 1000 + 10) 30) ∧
      2 ≤ (rlgAux (fun _ => ⟨403, "API rate limit exceeded", some 1050⟩)
        1000 0 3).requests ∧
      (∀ (resp : Nat → HttpResponse) (t0 : Int) (m : Nat),
        rateLimitedGet resp t0 m = rlgAux resp t0 0 m) :=
  rate_limited_get_reset_wait
    (fun _ => ⟨403, "API rate limit exceeded", some 1050⟩)
    1000 0 3 1050 rfl (by decide) rfl (by decide) (by decide)

/-- C2: if every response the call receives is an HTTP 403 rate-limit
response without a reset header, then `rate_limited_get` with the default
bound of 3 attempts sleeps 30, 60 and 120 seconds after attempts 1, 2 and 3
respectively, issues exactly 3 requests, and returns the response of the
3rd (last) attempt. -/
theorem rate_limited_get_exp_backoff (responses : Nat → HttpResponse)
    (t : Int)
    (hstatus : ∀ k, (responses k).status_code = 403)
    (htext : ∀ k, textHasRateLimit (responses k).text = true)
    (hreset : ∀ k, (responses k).resetHeader = none) :
    rateLimitedGet responses t 3 = ⟨responses 2, [30, 60, 120], 3⟩ := by
  have hact : ∀ k t', handleResponse (responses k) k t' =
      .retryAfter (2 ^ k * 30) := by
    intro k t'
    unfold handleResponse isRateLimitResp
    rw [hstatus k, htext k, hreset k]
    simp
  show rlgAux responses t 0 3 = _
  simp [rlgAux, hact]

/-- Concrete witness for `rate_limited_get_exp_backoff`: every attempt is
answered by the same headerless 403 rate-limit response. -/
theorem rate_limited_get_exp_backoff_witness :
    rateLimitedGet (fun _ => ⟨403, "API rate limit exceeded", none⟩) 0 3 =
      ⟨⟨403, "API rate limit exceeded", none⟩, [30, 60, 120], 3⟩ :=
  rate_limited_get_exp_backoff
    (fun _ => ⟨403, "API rate limit exceeded", none⟩) 0
    (fun _ => rfl) (fun _ => rfl) (fun _ => rfl)

/-- C3: when the first response has HTTP status 422, `rate_limited_get`
(with any positive retry bound, in particular the default 3) performs no
sleep, issues exactly one request, and returns that first response
unmodified. -/
theorem rate_limited_get_422_short_circuit (responses : Nat → HttpResponse)
    (t : Int) (m : Nat) (hstatus : (responses 0).status_code = 422) :
    rateLimitedGet responses t (m + 1) = ⟨responses 0, [], 1⟩ := by
  have hact : handleResponse (responses 0) 0 t = .terminate := by
    unfold handleResponse isRateLimitResp
    rw [hstatus]
    simp
  show rlgAux responses t 0 (m + 1) = _
  rw [rlgAux_succ, hact]

/-- Concrete witness for `rate_limited_get_422_short_circuit`: a 422
validation error on the first attempt, default bound 3. -/
theorem rate_limited_get_422_short_circuit_witness :
    rateLimitedGet
        (fun _ => ⟨422, "Validation Failed", none⟩) 0 (2 + 1) =
      ⟨⟨422, "Validation Failed", none⟩, [], 1⟩ :=
  rate_limited_get_422_short_circuit
    (fun _ => ⟨422, "Validation Failed", none⟩) 0 2 rfl

/-- C9: when the first response has HTTP status 403 but its body text does
not contain the phrase "rate limit" (after lowercasing), `rate_limited_get`
returns that response immediately: one request, no sleep, no retry. -/
theorem rate_limited_get_403_not_rate_limit (responses : Nat → HttpResponse)
    (t : Int) (m : Nat)
    (hstatus : (responses 0).status_code = 403)
    (htext : textHasRateLimit (responses 0).text = false) :
    rateLimitedGet responses t (m + 1) = ⟨responses 0, [], 1⟩ := by
  have hact : handleResponse (responses 0) 0 t = .terminate := by
    unfold handleResponse isRateLimitResp
    rw [hstatus, htext]
    simp
  show rlgAux responses t 0 (m + 1) = _
  rw [rlgAux_succ, hact]

/-- Concrete witness for `rate_limited_get_403_not_rate_limit`: a 403 whose
body is a permissions error, not a rate-limit message. -/
theorem rate_limited_get_403_not_rate_limit_witness :
    rateLimitedGet
        (fun _ => ⟨403, "Resource not accessible by integration", none⟩)
        0 (2 + 1) =
      ⟨⟨403, "Resource not accessible by integration", none⟩, [], 1⟩ :=
  rate_limited_get_403_not_rate_limit
    (fun _ => ⟨403, "Resource not accessible by integration", none⟩)
    0 2 rfl (by decide)

/-! ## Dates and `strftime` (used by `collect_weekly_growth`) -/

/-- Seconds in one day; `timedelta(days=n)` is `n * secondsPerDay`. -/
def secondsPerDay : Nat := 86400

/-- Gregorian leap-year test. -/
def isLeapYear (y : Nat) : Bool :=
  y % 4 == 0 && (y % 100 != 0 || y % 400 == 0)

/-- Number of days in year `y`. -/
def daysInYear (y : Nat) : Nat := if isLeapYear y then 366 else 365

/-- Walk forward from year `y` consuming whole years out of the remaining
day count `d` (the fuel is an upper bound on the years to cross; each
crossed year consumes at least 365 days, so fuel `d` always suffices). -/
def resolveYear : Nat → Nat → Nat → Nat × Nat
  | 0, y, d => (y, d)
  | fuel + 1, y, d =>
    if d < daysInYear y then (y, d) else resolveYear fuel (y + 1) (d - daysInYear y)

/-- Month lengths, January first. -/
def monthLengths (leap : Bool) : List Nat :=
  [31, if leap then 29 else 28, 31, 30, 31, 30, 31, 31, 30, 31, 30, 31]

/-- Resolve a 0-based day-of-year into a (1-based month, 1-based day). -/
def resolveMonth : List Nat → Nat → Nat → Nat × Nat
  | [], m, d => (m, d + 1)
  | len :: rest, m, d =>
    if d < len then (m, d + 1) else resolveMonth rest (m + 1) (d - len)

/-- Calendar date `(year, month, day)` of day number `dayIndex`, counting
day 0 as 2025-01-01 (the chosen epoch of the embedding). -/
def dateOfDay (dayIndex : Nat) : Nat × Nat × Nat :=
  let yr := resolveYear dayIndex 2025 dayIndex
  let md := resolveMonth (monthLengths (isLeapYear yr.1)) 1 yr.2
  (yr.1, md.1, md.2)

/-- Zero-padded two-digit decimal rendering, as `strftime` produces. -/
def pad2 (n : Nat) : String :=
  if n < 10 then "0" ++ Nat.repr n else Nat.repr n

/-- `strftime('%Y-%m-%d')` of the day holding time `t` (seconds since the
epoch). -/
def fmtDate (t : Nat) : String :=
  let ymd := dateOfDay (t / secondsPerDay)
  Nat.repr ymd.1 ++ "-" ++ pad2 ymd.2.1 ++ "-" ++ pad2 ymd.2.2

/-- `strftime('%b')` month abbreviations. -/
def monthAbbrev (m : Nat) : String :=
  (["Jan", "Feb", "Mar", "Apr", "May", "Jun",
    "Jul", "Aug", "Sep", "Oct", "Nov", "Dec"]).getD (m - 1) ""

/-- The window label of main.py line 196:
`f"{week_start.strftime('%b %d')}-{week_end.strftime('%d')}"`. -/
def fmtPeriod (s e : Nat) : String :=
  let a := dateOfDay (s / secondsPerDay)
  let b := dateOfDay (e / secondsPerDay)
  monthAbbrev a.2.1 ++ " " ++ pad2 a.2.2 ++ "-" ++ pad2 b.2.2

/-! ## Search payloads and the weekly-growth loop
(`collect_weekly_growth`, main.py lines 186-228) -/

/-- The parts of a parsed search-API JSON payload that the collector reads:
`'total_count' in result` / `result['total_count']`, `result.get('message')`,
and `'errors' in result` / `result['errors']` (the structured details kept
as an opaque string). -/
structure SearchPayload where
  total_count : Option Int
  message : Option String
  errors : Option String
deriving DecidableEq

/-- One element of the `weekly_data` list built at main.py lines 207-213
(and, identically shaped, one element of a persisted `weekly_growth`
array). -/
structure WeekData where
  period : String
  start_date : String
  end_date : String
  commits_coauthored : Option Int
  commits_primary_author : Option Int
deriving DecidableEq

/-- The raw `[week_start, week_end]` bounds (seconds) that the loop of
main.py lines 193-223 visits: starting at `weekStart`, while
`week_start < now` emit `(week_start, min (week_start + 6 days) now)` and
step by 7 days.  Fuel-indexed embedding of the `while` loop; the wrapper
`weeklyWindows` passes fuel that can never run out. -/
def weeklyWindowsFuel (now : Nat) : Nat → Nat → List (Nat × Nat)
  | 0, _ => []
  | fuel + 1, weekStart =>
    if weekStart < now then
      (weekStart, min (weekStart + 6 * secondsPerDay) now) ::
        weeklyWindowsFuel now fuel (weekStart + 7 * secondsPerDay)
    else []


/-- The week windows the loop visits for current time `now` and launch
time `weekStart`.  Fuel `now + 1` always suffices: every iteration advances
`week_start` by `7 * secondsPerDay ≥ 1`, so at most `now` iterations can
satisfy `week_start < now` (see `weeklyWindowsFuel_stable`). -/
def weeklyWindows (now weekStart : Nat) : List (Nat × Nat) :=
  weeklyWindowsFuel now (now + 1) weekStart

/-- The `WeekData` recorded for raw window `p`, with `fc` and `fp` the
network oracles giving the payloads that `get_coauthored_commits` and
`get_commits_by_author` observe for a given `date_range` string
(main.py lines 196-213): count fields hold `result['total_count']` when
present and `None` otherwise (lines 201 and 205). -/
def mkWeek (fc fp : String → SearchPayload) (p : Nat × Nat) : WeekData :=
  let dateRange := fmtDate p.1 ++ ".." ++ fmtDate p.2
  { period := fmtPeriod p.1 p.2
    start_date := fmtDate p.1
    end_date := fmtDate p.2
    commits_coauthored := (fc dateRange).total_count
    commits_primary_author := (fp dateRange).total_count }

/-- `collect_weekly_growth` (main.py lines 186-228), fuel-indexed like
`weeklyWindowsFuel`: returns the `weekly_data` list together with the
number of commit-count queries issued (two per window: one co-authored,
one primary-author). -/
def collectWeeklyGrowthFuel (fc fp : String → SearchPayload) (now : Nat) :
    Nat → Nat → List WeekData × Nat
  | 0, _ => ([], 0)
  | fuel + 1, weekStart =>
    if weekStart < now then
      let weekEnd := min (weekStart + 6 * secondsPerDay) now
      let rest := collectWeeklyGrowthFuel fc fp now fuel
        (weekStart + 7 * secondsPerDay)
      (mkWeek fc fp (weekStart, weekEnd) :: rest.1, rest.2 + 2)
    else ([], 0)

/-- `collect_weekly_growth(username, token, start_date, email)`: the weekly
data and the query count, for current time `now` and launch `weekStart`. -/
def collectWeeklyGrowth (fc fp : String → SearchPayload)
    (now weekStart : Nat) : List WeekData × Nat :=
  collectWeeklyGrowthFuel fc fp now (now + 1) weekStart

/-- One-step unfolding of the fuelled window loop. -/
theorem weeklyWindowsFuel_succ (now f s : Nat) :
    weeklyWindowsFuel now (f + 1) s =
      if s < now then
        (s, min (s + 6 * secondsPerDay) now) ::
          weeklyWindowsFuel now f (s + 7 * secondsPerDay)
      else [] := rfl

/-- Once the fuel bounds the weeks left to walk, adding fuel changes
nothing: the fuelled loop has converged to the `while` loop's behaviour. -/
theorem weeklyWindowsFuel_stable (now : Nat) : ∀ (f g s : Nat),
    now ≤ s + 7 * secondsPerDay * f →
    weeklyWindowsFuel now (f + 1) s = weeklyWindowsFuel now (f + 1 + g) s := by
  intro f
  induction f with
  | zero =>
    intro g s h
    have hns : ¬ s < now := by
      simp only [secondsPerDay] at h
      omega
    cases g with
    | zero => rfl
    | succ g' =>
      rw [weeklyWindowsFuel_succ, if_neg hns,
        show 0 + 1 + (g' + 1) = (g' + 1) + 1 from by omega,
        weeklyWindowsFuel_succ, if_neg hns]
  | succ f' ih =>
    intro g s h
    have h' : now ≤ (s + 7 * secondsPerDay) + 7 * secondsPerDay * f' := by
      simp only [secondsPerDay] at h ⊢
      omega
    rw [show f' + 1 + 1 + g = (f' + 1 + g) + 1 from by omega,
      weeklyWindowsFuel_succ now (f' + 1) s,
      weeklyWindowsFuel_succ now (f' + 1 + g) s]
    by_cases hs : s < now
    · rw [if_pos hs, if_pos hs, ih g (s + 7 * secondsPerDay) h']
    · rw [if_neg hs, if_neg hs]

/-- Loop-entry unfolding for `weeklyWindows` when a window remains. -/
theorem weeklyWindows_pos (now s : Nat) (h : s < now) :
    weeklyWindows now s =
      (s, min (s + 6 * secondsPerDay) now) ::
        weeklyWindows now (s + 7 * secondsPerDay) := by
  obtain ⟨n, rfl⟩ : ∃ n, now = n + 1 := ⟨now - 1, by omega⟩
  show weeklyWindowsFuel (n + 1) ((n + 1) + 1) s = _
  rw [weeklyWindowsFuel_succ, if_pos h]
  congr 1
  have hb : n + 1 ≤ (s + 7 * secondsPerDay) + 7 * secondsPerDay * n := by
    simp only [secondsPerDay]
    omega
  exact weeklyWindowsFuel_stable (n + 1) n 1 (s + 7 * secondsPerDay) hb

/-- Loop-exit for `weeklyWindows`: nothing when the launch is not before
`now`. -/
theorem weeklyWindows_neg (now s : Nat) (h : now ≤ s) :
    weeklyWindows now s = [] := by
  show weeklyWindowsFuel now (now + 1) s = []
  rw [weeklyWindowsFuel_succ, if_neg (by omega)]

/-- The weekly-growth loop is the window loop with each window turned into
its recorded `WeekData`, issuing two queries per window. -/
theorem collectWeeklyGrowthFuel_eq (fc fp : String → SearchPayload)
    (now : Nat) : ∀ (f s : Nat),
    collectWeeklyGrowthFuel fc fp now f s =
      ((weeklyWindowsFuel now f s).map (mkWeek fc fp),
        2 * (weeklyWindowsFuel now f s).length) := by
  intro f
  induction f with
  | zero => intro s; rfl
  | succ f' ih =>
    intro s
    by_cases hs : s < now
    · simp only [collectWeeklyGrowthFuel, weeklyWindowsFuel_succ, if_pos hs,
        ih, List.map_cons, List.length_cons, Prod.mk.injEq]
      exact ⟨trivial, by omega⟩
    · simp only [collectWeeklyGrowthFuel, weeklyWindowsFuel_succ, if_neg hs]
      rfl

/-- `collectWeeklyGrowth` through `weeklyWindows`. -/
theorem collectWeeklyGrowth_eq (fc fp : String → SearchPayload)
    (now s : Nat) :
    collectWeeklyGrowth fc fp now s =
      ((weeklyWindows now s).map (mkWeek fc fp),
        2 * (weeklyWindows now s).length) :=
  collectWeeklyGrowthFuel_eq fc fp now (now + 1) s

/-- Every window the loop visits starts no earlier than the launch, starts
strictly before `now`, and ends at `min (start + 6 days) now`. -/
theorem weeklyWindowsFuel_mem (now : Nat) : ∀ (f s : Nat)
    (p : Nat × Nat), p ∈ weeklyWindowsFuel now f s →
    s ≤ p.1 ∧ p.1 < now ∧ p.2 = min (p.1 + 6 * secondsPerDay) now := by
  intro f
  induction f with
  | zero => intro s p hp; cases hp
  | succ f' ih =>
    intro s p hp
    rw [weeklyWindowsFuel_succ] at hp
    by_cases hs : s < now
    · rw [if_pos hs] at hp
      rcases List.mem_cons.mp hp with h | h
      · subst h
        exact ⟨Nat.le_refl _, hs, rfl⟩
      · obtain ⟨h1, h2, h3⟩ := ih (s + 7 * secondsPerDay) p h
        exact ⟨by omega, h2, h3⟩
    · rw [if_neg hs] at hp
      cases hp

/-- The head of a nonempty run of the window loop starts exactly at the
point the loop was entered, and that point lies before `now`. -/
theorem weeklyWindowsFuel_head (now : Nat) (f s : Nat) (y : Nat × Nat)
    (h : (weeklyWindowsFuel now f s).head? = some y) :
    y.1 = s ∧ s < now := by
  cases f with
  | zero => cases h
  | succ f' =>
    rw [weeklyWindowsFuel_succ] at h
    by_cases hs : s < now
    · rw [if_pos hs] at h
      cases h
      exact ⟨rfl, hs⟩
    · rw [if_neg hs] at h
      cases h

/-- Consecutive windows are contiguous: each next window starts exactly one
day after the previous window's end (hence windows never overlap). -/
theorem weeklyWindowsFuel_chain (now : Nat) : ∀ (f s : Nat),
    List.Chain' (fun a b : Nat × Nat => b.1 = a.2 + secondsPerDay)
      (weeklyWindowsFuel now f s) := by
  intro f
  induction f with
  | zero => intro s; exact List.chain'_nil
  | succ f' ih =>
    intro s
    rw [weeklyWindowsFuel_succ]
    by_cases hs : s < now
    · rw [if_pos hs]
      refine List.chain'_cons'.mpr ⟨?_, ih (s + 7 * secondsPerDay)⟩
      intro y hy
      obtain ⟨hy1, hy2⟩ := weeklyWindowsFuel_head now f' (s + 7 * secondsPerDay) y hy
      have hmin : min (s + 6 * secondsPerDay) now = s + 6 * secondsPerDay := by
        apply Nat.min_eq_left
        simp only [secondsPerDay] at hy2 ⊢
        omega
      rw [hmin, hy1]
      have e : secondsPerDay = 86400 := rfl
      omega
    · rw [if_neg hs]
      exact List.chain'_nil

/-- C4: for any launch time strictly before the current time, the weekly
list that `collect_weekly_growth` produces is the image of the window
decomposition `weeklyWindows`, and that decomposition starts exactly at the
launch, has every window spanning at most 7 calendar days (end at most
start + 6 days, never before its start), ending at or before `now`, and is
contiguous and non-overlapping: each successive window starts exactly one
day after its predecessor ends. -/
theorem collect_weekly_growth_invariants (fc fp : String → SearchPayload)
    (now s : Nat) (h : s < now) :
    (collectWeeklyGrowth fc fp now s).1 =
        (weeklyWindows now s).map (mkWeek fc fp) ∧
      (weeklyWindows now s).head? =
        some (s, min (s + 6 * secondsPerDay) now) ∧
      (∀ p ∈ weeklyWindows now s,
        p.1 ≤ p.2 ∧ p.2 ≤ p.1 + 6 * secondsPerDay ∧ p.2 ≤ now) ∧
      List.Chain' (fun a b : Nat × Nat => b.1 = a.2 + secondsPerDay)
        (weeklyWindows now s) := by
  refine ⟨by rw [collectWeeklyGrowth_eq], ?_, ?_, ?_⟩
  · rw [weeklyWindows_pos now s h]
    rfl
  · intro p hp
    obtain ⟨h1, h2, h3⟩ := weeklyWindowsFuel_mem now (now + 1) s p hp
    refine ⟨?_, ?_, ?_⟩
    · rw [h3]
      exact Nat.le_min.mpr ⟨Nat.le_add_right _ _, Nat.le_of_lt h2⟩
    · rw [h3]
      exact Nat.min_le_left _ _
    · rw [h3]
      exact Nat.min_le_right _ _
  · exact weeklyWindowsFuel_chain now (now + 1) s

/-- Concrete witness for `collect_weekly_growth_invariants`: launch at time
0, current time one day later, empty payloads. -/
theorem collect_weekly_growth_invariants_witness :
    (collectWeeklyGrowth (fun _ => ⟨none, none, none⟩)
          (fun _ => ⟨none, none, none⟩) secondsPerDay 0).1 =
        (weeklyWindows secondsPerDay 0).map
          (mkWeek (fun _ => ⟨none, none, none⟩) (fun _ => ⟨none, none, none⟩)) ∧
      (weeklyWindows secondsPerDay 0).head? =
        some (0, min (0 + 6 * secondsPerDay) secondsPerDay) ∧
      (∀ p ∈ weeklyWindows secondsPerDay 0,
        p.1 ≤ p.2 ∧ p.2 ≤ p.1 + 6 * secondsPerDay ∧ p.2 ≤ secondsPerDay) ∧
      List.Chain' (fun a b : Nat × Nat => b.1 = a.2 + secondsPerDay)
        (weeklyWindows secondsPerDay 0) :=
  collect_weekly_growth_invariants (fun _ => ⟨none, none, none⟩)
    (fun _ => ⟨none, none, none⟩) secondsPerDay 0 (by decide)

/-- C10: when the launch (start) time is at or after the current time, the
weekly loop body never runs: `collect_weekly_growth` issues no commit-count
queries and returns the empty list. -/
theorem collect_weekly_growth_empty (fc fp : String → SearchPayload)
    (now s : Nat) (h : now ≤ s) :
    collectWeeklyGrowth fc fp now s = ([], 0) := by
  rw [collectWeeklyGrowth_eq, weeklyWindows_neg now s h]
  rfl

/-- Concrete witness for `collect_weekly_growth_empty`: launch exactly at
the current time. -/
theorem collect_weekly_growth_empty_witness :
    collectWeeklyGrowth (fun _ => ⟨none, none, none⟩)
        (fun _ => ⟨none, none, none⟩) 100 100 = ([], 0) :=
  collect_weekly_growth_empty (fun _ => ⟨none, none, none⟩)
    (fun _ => ⟨none, none, none⟩) 100 100 (by decide)

/-- C5 counterexample: with the scenario's launch date 2025-02-24 (day 54
of the epoch) and the current time taken to be exactly `datetime(2025, 3,
10)` — midnight at the start of 2025-03-10, day 68 — the loop condition
`week_start < current_date` fails for the third window's start, so
`collect_weekly_growth` produces only the 2 windows
[2025-02-24..2025-03-02] and [2025-03-03..2025-03-09], not 3. -/
theorem weekly_growth_botx_midnight_counterexample :
    ((collectWeeklyGrowth (fun _ => ⟨none, none, none⟩)
          (fun _ => ⟨none, none, none⟩)
          (68 * secondsPerDay) (54 * secondsPerDay)).1.map
        (fun w => (w.start_date, w.end_date)) =
      [("2025-02-24", "2025-03-02"), ("2025-03-03", "2025-03-09")]) ∧
    (collectWeeklyGrowth (fun _ => ⟨none, none, none⟩)
        (fun _ => ⟨none, none, none⟩)
        (68 * secondsPerDay) (54 * secondsPerDay)).1.length ≠ 3 := by
  constructor
  · rfl
  · decide

/-- C5 (amended): for an actor launched 2025-02-24 (day 54 of the epoch)
and any current time lying strictly inside the day 2025-03-10 — strictly
after midnight `datetime(2025, 3, 10)` and strictly before midnight
2025-03-11 — `collect_weekly_growth` produces exactly 3 weekly windows,
with date ranges [2025-02-24..2025-03-02], [2025-03-03..2025-03-09] and
[2025-03-10..2025-03-10], the last clipped to "now". -/
theorem weekly_growth_botx_scenario (fc fp : String → SearchPayload)
    (now : Nat) (h1 : 68 * secondsPerDay < now)
    (h2 : now < 69 * secondsPerDay) :
    (collectWeeklyGrowth fc fp now (54 * secondsPerDay)).1.map
        (fun w => (w.start_date, w.end_date)) =
      [("2025-02-24", "2025-03-02"), ("2025-03-03", "2025-03-09"),
        ("2025-03-10", "2025-03-10")] := by
  have e : secondsPerDay = 86400 := rfl
  have h54 : 54 * secondsPerDay < now := by omega
  have h61 : 54 * secondsPerDay + 7 * secondsPerDay < now := by omega
  have h68 : 54 * secondsPerDay + 7 * secondsPerDay + 7 * secondsPerDay <
      now := by omega
  have h75 : now ≤ 54 * secondsPerDay + 7 * secondsPerDay +
      7 * secondsPerDay + 7 * secondsPerDay := by omega
  have hm1 : min (54 * secondsPerDay + 6 * secondsPerDay) now =
      54 * secondsPerDay + 6 * secondsPerDay :=
    Nat.min_eq_left (by omega)
  have hm2 : min (54 * secondsPerDay + 7 * secondsPerDay +
        6 * secondsPerDay) now =
      54 * secondsPerDay + 7 * secondsPerDay + 6 * secondsPerDay :=
    Nat.min_eq_left (by omega)
  have hm3 : min (54 * secondsPerDay + 7 * secondsPerDay +
        7 * secondsPerDay + 6 * secondsPerDay) now = now :=
    Nat.min_eq_right (by omega)
  have hdiv : now / secondsPerDay = 68 := by
    rw [e]
    rw [e] at h1 h2
    omega
  have hfmt : fmtDate now = "2025-03-10" := by
    unfold fmtDate
    rw [hdiv]
    rfl
  rw [collectWeeklyGrowth_eq]
  rw [weeklyWindows_pos now (54 * secondsPerDay) h54,
    weeklyWindows_pos now (54 * secondsPerDay + 7 * secondsPerDay) h61,
    weeklyWindows_pos now
      (54 * secondsPerDay + 7 * secondsPerDay + 7 * secondsPerDay) h68,
    weeklyWindows_neg now
      (54 * secondsPerDay + 7 * secondsPerDay + 7 * secondsPerDay +
        7 * secondsPerDay) h75,
    hm1, hm2, hm3]
  simp only [List.map_cons, List.map_nil, mkWeek, hfmt]
  rfl

/-- Concrete witness for `weekly_growth_botx_scenario`: current time noon
on 2025-03-10. -/
theorem weekly_growth_botx_scenario_witness :
    (collectWeeklyGrowth (fun _ => ⟨none, none, none⟩)
          (fun _ => ⟨none, none, none⟩)
          (68 * secondsPerDay + 43200) (54 * secondsPerDay)).1.map
        (fun w => (w.start_date, w.end_date)) =
      [("2025-02-24", "2025-03-02"), ("2025-03-03", "2025-03-09"),
        ("2025-03-10", "2025-03-10")] :=
  weekly_growth_botx_scenario (fun _ => ⟨none, none, none⟩)
    (fun _ => ⟨none, none, none⟩) (68 * secondsPerDay + 43200)
    (by decide) (by decide)

/-! ## Query builders (main.py lines 44-149) -/

/-- Python truthiness of the optional `username` / `email` / `date_range`
arguments: `None` and the empty string are falsy. -/
def pyTruthy : Option String → Bool
  | none => false
  | some s => !s.isEmpty

/-- The value of an optional argument once known truthy. -/
def optVal (o : Option String) : String := o.getD ""

/-- The search query built by `get_coauthored_commits` (main.py lines
53-62): `co-authored-by:` clauses for the present identifiers, OR-joined,
falling back to the sentinel `co-authored-by:nonexistent`, then a
`committer-date:` clause when a date range is given. -/
def coauthoredQuery (username email dateRange : Option String) : String :=
  let queryParts :=
    (if pyTruthy username then ["co-authored-by:" ++ optVal username] else []) ++
      (if pyTruthy email then ["co-authored-by:" ++ optVal email] else [])
  let query :=
    if queryParts.isEmpty then "co-authored-by:nonexistent"
    else String.intercalate " OR " queryParts
  if pyTruthy dateRange then query ++ " committer-date:" ++ optVal dateRange
  else query

/-- The search query built by `get_commits_by_author` (main.py lines
82-91): `author:` / `author-email:` clauses, OR-joined, sentinel
`author:nonexistent`, plus the `committer-date:` clause. -/
def authorQuery (username email dateRange : Option String) : String :=
  let queryParts :=
    (if pyTruthy username then ["author:" ++ optVal username] else []) ++
      (if pyTruthy email then ["author-email:" ++ optVal email] else [])
  let query :=
    if queryParts.isEmpty then "author:nonexistent"
    else String.intercalate " OR " queryParts
  if pyTruthy dateRange then query ++ " committer-date:" ++ optVal dateRange
  else query

/-- The search query built by `get_activity` (main.py lines 112-141) for a
given search surface; `none` models the structured-error return of line 138
for an unsupported surface (no request is made).  Only the `issues` surface
appends a `created:` date filter (line 140). -/
def activityQuery (username email : Option String) (searchType : String)
    (dateRange : Option String) : Option String :=
  let base :=
    if searchType == "issues" then
      let queryParts :=
        (if pyTruthy username then
          ["is:issue \"" ++ optVal username ++ "\" OR mentions:" ++
            optVal username ++ " OR \"co-authored-by " ++ optVal username ++ "\""]
        else []) ++
          (if pyTruthy email then
            ["is:issue \"" ++ optVal email ++ "\" OR \"co-authored-by " ++
              optVal email ++ "\""]
          else [])
      some (if queryParts.isEmpty then "is:issue nonexistent"
        else String.intercalate " OR " queryParts)
    else if searchType == "repositories" then
      let queryParts :=
        (if pyTruthy username then
          [optVal username ++ " in:name,description,readme"] else []) ++
          (if pyTruthy email then
            [optVal email ++ " in:name,description,readme"] else [])
      some (if queryParts.isEmpty then "nonexistent in:name"
        else String.intercalate " OR " queryParts)
    else if searchType == "code" then
      let queryParts :=
        (if pyTruthy username then
          ["\"co-authored-by " ++ optVal username ++ "\" OR \"" ++
            optVal username ++ " code\" OR \"generated with " ++
            optVal username ++ "\""]
        else []) ++
          (if pyTruthy email then
            ["\"co-authored-by " ++ optVal email ++ "\" OR \"" ++
              optVal email ++ " code\""]
          else [])
      some (if queryParts.isEmpty then "\"nonexistent\""
        else String.intercalate " OR " queryParts)
    else none
  match base with
  | none => none
  | some q =>
    some (if pyTruthy dateRange && searchType == "issues" then
      q ++ " created:" ++ optVal dateRange
    else q)

/-- C6: for an actor with neither handle nor email configured (both absent
or empty, hence falsy), every query builder emits its sentinel
`nonexistent` identifier clause — the built query starts with the sentinel
clause and is never an unconstrained query — for any date range, across
the co-authored builder, the primary-author builder, and all three
supported activity surfaces. -/
theorem query_builders_sentinel (username email dateRange : Option String)
    (hu : pyTruthy username = false) (he : pyTruthy email = false) :
    (∃ rest, coauthoredQuery username email dateRange =
        "co-authored-by:nonexistent" ++ rest) ∧
      (∃ rest, authorQuery username email dateRange =
        "author:nonexistent" ++ rest) ∧
      (∃ rest, activityQuery username email "issues" dateRange =
        some ("is:issue nonexistent" ++ rest)) ∧
      activityQuery username email "repositories" dateRange =
        some "nonexistent in:name" ∧
      activityQuery username email "code" dateRange =
        some "\"nonexistent\"" := by
  refine ⟨?_, ?_, ?_, ?_, ?_⟩ <;>
    simp only [coauthoredQuery, authorQuery, activityQuery, hu, he,
      if_false, Bool.false_eq_true, List.append_nil, List.isEmpty_nil,
      if_true] <;>
    by_cases hd : pyTruthy dateRange
  · exact ⟨" committer-date:" ++ optVal dateRange, by
      simp only [hd, if_true]
      exact String.append_assoc _ _ _⟩
  · exact ⟨"", by simp [hd]⟩
  · exact ⟨" committer-date:" ++ optVal dateRange, by
      simp only [hd, if_true]
      exact String.append_assoc _ _ _⟩
  · exact ⟨"", by simp [hd]⟩
  · exact ⟨" created:" ++ optVal dateRange, by
      simp [hd]
      rw [← String.append_assoc]
      rfl⟩
  · exact ⟨"", by simp [hd]⟩
  · simp [hd]
  · simp [hd]
  · simp [hd]
  · simp [hd]

/-- Concrete witness for `query_builders_sentinel`: no handle, no email, a
concrete weekly date range. -/
theorem query_builders_sentinel_witness :
    (∃ rest, coauthoredQuery none none (some "2025-02-24..2025-03-02") =
        "co-authored-by:nonexistent" ++ rest) ∧
      (∃ rest, authorQuery none none (some "2025-02-24..2025-03-02") =
        "author:nonexistent" ++ rest) ∧
      (∃ rest, activityQuery none none "issues"
          (some "2025-02-24..2025-03-02") =
        some ("is:issue nonexistent" ++ rest)) ∧
      activityQuery none none "repositories" (some "2025-02-24..2025-03-02") =
        some "nonexistent in:name" ∧
      activityQuery none none "code" (some "2025-02-24..2025-03-02") =
        some "\"nonexistent\"" :=
  query_builders_sentinel none none (some "2025-02-24..2025-03-02") rfl rfl

/-! ## Overall stats (`collect_user_stats`, main.py lines 151-184) -/

/-- A line printed by `collect_user_stats` while recording one stat
(main.py lines 176-182): the success line with the count, the
`Error - <message>` line, or the `Details: <errors>` line. -/
inductive LogEvent where
  | success (stat : String) (count : Int)
  | error (stat : String) (msg : String)
  | errorDetails (details : String)
deriving DecidableEq

/-- The enabled activity names of main.py lines 164-170 (the issue and
code queries are commented out in the source). -/
def overallActivities : List String :=
  ["commits_coauthored", "commits_primary_author", "repositories_mentioning"]

/-- Recording one stat from its query result (main.py lines 172-182):
if `'total_count' in result` record the count and print it; otherwise
record `None`, print `Error - result.get('message', 'Unknown error')`, and
print the structured details when `'errors' in result`. -/
def recordStat (fetch : String → SearchPayload) (statName : String) :
    Option Int × List LogEvent :=
  let result := fetch statName
  match result.total_count with
  | some n => (some n, [LogEvent.success statName n])
  | none =>
    let errorMsg := result.message.getD "Unknown error"
    match result.errors with
    | some details =>
      (none, [LogEvent.error statName errorMsg, LogEvent.errorDetails details])
    | none => (none, [LogEvent.error statName errorMsg])

/-- A per-actor record, as the `stats` dict of main.py lines 155-161 (and,
identically shaped, one element of the persisted `users` array).
`overall_stats` is kept as the ordered association list the dict holds in
insertion order. -/
structure UserRecord where
  display_name : String
  username : String
  email : Option String
  overall_stats : List (String × Option Int)
  weekly_growth : List WeekData
deriving DecidableEq

/-- `collect_user_stats(display_name, username, token, email)` (main.py
lines 151-184): builds the per-actor record with its overall stats (weekly
growth still empty, as at line 160; the caller fills it in later), plus the
log lines printed.  `fetch` maps each activity's stat name to the JSON
payload its query returns. -/
def collectUserStats (display_name username : String) (email : Option String)
    (fetch : String → SearchPayload) : UserRecord × List LogEvent :=
  let folded := overallActivities.foldl
    (fun acc statName =>
      let r := recordStat fetch statName
      (acc.1 ++ [(statName, r.1)], acc.2 ++ r.2))
    ([], [])
  ({ display_name := display_name, username := username, email := email,
     overall_stats := folded.1, weekly_growth := [] }, folded.2)

/-- C7: in `collect_user_stats`, a query payload carrying
`total_count: 42` yields `commits_coauthored = 42` in the overall stats,
while a payload with no `total_count` and `message: "Bad credentials"`
yields `commits_coauthored = None` together with the message
`"Bad credentials"` printed in the error log line for that stat. -/
theorem collect_user_stats_payload_handling :
    ((collectUserStats "Claude Code" "claude" none
          (fun _ => ⟨some 42, none, none⟩)).1.overall_stats.lookup
        "commits_coauthored" = some (some 42)) ∧
      ((collectUserStats "Claude Code" "claude" none
          (fun _ => ⟨none, some "Bad credentials", none⟩)).1.overall_stats.lookup
        "commits_coauthored" = some none) ∧
      LogEvent.error "commits_coauthored" "Bad credentials" ∈
        (collectUserStats "Claude Code" "claude" none
          (fun _ => ⟨none, some "Bad credentials", none⟩)).2 := by
  refine ⟨rfl, rfl, ?_⟩
  decide

/-! ## Persisted JSON artifact and the renderer's loader
(main.py lines 247-275; plot_analysis.py lines 34-37)

`json.dump` followed by `json.load` is the identity on the JSON value
formed from strings, integers, `None`, lists and (insertion-ordered)
dicts, so the persisted round trip reduces to converting the in-memory
record to its JSON value (exactly the dict `main.py` builds) and reading
that value back (what the renderer holds after `load_data`). -/

/-- JSON values as Python's `json` module produces and consumes them for
this artifact (object keys keep insertion order). -/
inductive JValue where
  | null
  | str (s : String)
  | num (n : Int)
  | arr (xs : List JValue)
  | obj (fields : List (String × JValue))

/-- Key lookup among a JSON object's bindings, first match. -/
def lookupField : List (String × JValue) → String → Option JValue
  | [], _ => none
  | (k, v) :: rest, key => if k == key then some v else lookupField rest key

/-- Dict lookup on a JSON object. -/
def jsonField : JValue → String → Option JValue
  | .obj fields, key => lookupField fields key
  | _, _ => none

/-- An optional count serialized as `int | null`. -/
def encodeOptInt : Option Int → JValue
  | none => .null
  | some n => .num n

/-- An optional string serialized as `str | null`. -/
def encodeOptStr : Option String → JValue
  | none => .null
  | some s => .str s

/-- The dict built for one weekly window (main.py lines 207-213). -/
def encodeWindow (w : WeekData) : JValue :=
  .obj [("period", .str w.period),
    ("start_date", .str w.start_date),
    ("end_date", .str w.end_date),
    ("commits_coauthored", encodeOptInt w.commits_coauthored),
    ("commits_primary_author", encodeOptInt w.commits_primary_author)]

/-- The dict built for one actor (main.py lines 155-161 filled at lines
172-182 and 261). -/
def encodeUser (u : UserRecord) : JValue :=
  .obj [("display_name", .str u.display_name),
    ("username", .str u.username),
    ("email", encodeOptStr u.email),
    ("overall_stats",
      .obj (u.overall_stats.map (fun kv => (kv.1, encodeOptInt kv.2)))),
    ("weekly_growth", .arr (u.weekly_growth.map encodeWindow))]

/-- The top-level persisted artifact (`all_data`, main.py lines 247-250):
a generation timestamp and the ordered actor records. -/
structure AnalysisRecord where
  analysis_date : String
  users : List UserRecord
deriving DecidableEq

/-- The `all_data` dict that `json.dump` persists (main.py lines 272-275). -/
def encodeAnalysis (r : AnalysisRecord) : JValue :=
  .obj [("analysis_date", .str r.analysis_date),
    ("users", .arr (r.users.map encodeUser))]

/-- Reading a mandatory string field. -/
def decodeStr : JValue → Option String
  | .str s => some s
  | _ => none

/-- Reading an `int | null` count field (`none` on any other shape). -/
def decodeOptInt : JValue → Option (Option Int)
  | .null => some none
  | .num n => some (some n)
  | _ => none

/-- Reading a `str | null` field. -/
def decodeOptStr : JValue → Option (Option String)
  | .null => some none
  | .str s => some (some s)
  | _ => none

/-- Reading back one weekly-window dict, the fields the renderer indexes
(`week['start_date']`, `week['end_date']`, `week['commits_coauthored']`,
`week['commits_primary_author']`, plus the persisted `period`). -/
def decodeWindow (j : JValue) : Option WeekData := do
  let period ← (jsonField j "period").bind decodeStr
  let sd ← (jsonField j "start_date").bind decodeStr
  let ed ← (jsonField j "end_date").bind decodeStr
  let cc ← (jsonField j "commits_coauthored").bind decodeOptInt
  let cp ← (jsonField j "commits_primary_author").bind decodeOptInt
  pure ⟨period, sd, ed, cc, cp⟩

/-- Reading back a JSON array element-wise, in order. -/
def decodeList {α : Type} (d : JValue → Option α) :
    List JValue → Option (List α)
  | [] => some []
  | j :: rest => do
    let a ← d j
    let r ← decodeList d rest
    pure (a :: r)

/-- Reading back the `overall_stats` dict entries in their stored order. -/
def decodeStatEntries :
    List (String × JValue) → Option (List (String × Option Int))
  | [] => some []
  | (k, v) :: rest => do
    let n ← decodeOptInt v
    let r ← decodeStatEntries rest
    pure ((k, n) :: r)

/-- Reading back one actor dict (the fields `plot_analysis.py` indexes:
`display_name`, `overall_stats`, `weekly_growth`, plus the persisted
`username` and `email`). -/
def decodeUser (j : JValue) : Option UserRecord := do
  let dn ← (jsonField j "display_name").bind decodeStr
  let un ← (jsonField j "username").bind decodeStr
  let em ← (jsonField j "email").bind decodeOptStr
  let os ← match jsonField j "overall_stats" with
    | some (.obj fields) => decodeStatEntries fields
    | _ => none
  let wg ← match jsonField j "weekly_growth" with
    | some (.arr xs) => decodeList decodeWindow xs
    | _ => none
  pure ⟨dn, un, em, os, wg⟩

/-- Reading back the whole artifact, as the renderer's `load_data` holds it
(`data['analysis_date']`, `data['users']`). -/
def decodeAnalysis (j : JValue) : Option AnalysisRecord := do
  let ad ← (jsonField j "analysis_date").bind decodeStr
  let us ← match jsonField j "users" with
    | some (.arr xs) => decodeList decodeUser xs
    | _ => none
  pure ⟨ad, us⟩

/-- Optional counts round-trip, nulls included. -/
theorem decodeOptInt_encode (o : Option Int) :
    decodeOptInt (encodeOptInt o) = some o := by
  cases o <;> rfl

/-- Optional strings round-trip, nulls included. -/
theorem decodeOptStr_encode (o : Option String) :
    decodeOptStr (encodeOptStr o) = some o := by
  cases o <;> rfl

/-- One weekly window round-trips. -/
theorem decodeWindow_encode (w : WeekData) :
    decodeWindow (encodeWindow w) = some w := by
  cases w with
  | mk period sd ed cc cp => cases cc <;> cases cp <;> rfl

/-- A weekly-window array round-trips in order. -/
theorem decodeList_encodeWindow (l : List WeekData) :
    decodeList decodeWindow (l.map encodeWindow) = some l := by
  induction l with
  | nil => rfl
  | cons w rest ih =>
    simp only [List.map_cons, decodeList, decodeWindow_encode, ih]
    rfl

/-- The overall-stats entries round-trip in stored order. -/
theorem decodeStatEntries_encode (l : List (String × Option Int)) :
    decodeStatEntries (l.map (fun kv => (kv.1, encodeOptInt kv.2))) =
      some l := by
  induction l with
  | nil => rfl
  | cons kv rest ih =>
    simp only [List.map_cons, decodeStatEntries, decodeOptInt_encode, ih]
    rfl

/-- One actor record round-trips. -/
theorem decodeUser_encode (u : UserRecord) :
    decodeUser (encodeUser u) = some u := by
  cases u with
  | mk dn un em os wg =>
    cases em <;>
      simp [encodeUser, decodeUser, encodeOptStr, jsonField,
        lookupField, decodeStr, decodeOptStr,
        decodeStatEntries_encode, decodeList_encodeWindow]

/-- The users array round-trips in order. -/
theorem decodeList_encodeUser (l : List UserRecord) :
    decodeList decodeUser (l.map encodeUser) = some l := by
  induction l with
  | nil => rfl
  | cons u rest ih =>
    simp only [List.map_cons, decodeList, decodeUser_encode, ih]
    rfl

/-- C8: serializing any Analysis Record to the persisted JSON value and
re-reading it through the renderer's loader reproduces the record exactly:
same actor ordering, same nullable counts (explicit nulls included), and
same weekly window sequences. -/
theorem analysis_record_round_trip (r : AnalysisRecord) :
    decodeAnalysis (encodeAnalysis r) = some r := by
  cases r with
  | mk ad users =>
    simp [encodeAnalysis, decodeAnalysis, jsonField,
      lookupField, decodeStr, decodeList_encodeUser]
